import Mathlib

/-!
Verification of the winroute routing-table library: a shallow embedding of
its route value object, the native row conversions, the manager's poll-step
cache mutation, the operator's registration and callback paths, and the
error-code mapping, together with theorems settling the specified properties.
-/

set_option maxRecDepth 4096

namespace Winroute

/-- An IP address: four octets for v4, sixteen octets for v6
(embedding `std::net::IpAddr`). -/
inductive IpAddr where
  | v4 : List Nat → IpAddr
  | v6 : List Nat → IpAddr
deriving DecidableEq

/-- The IP version derived from the address constructor, as computed by the
`match destination { V4 => 4, V6 => 6 }` expressions in `route.rs`. -/
def IpAddr.version : IpAddr → Nat
  | .v4 _ => 4
  | .v6 _ => 6

/-- `Ipv4Addr::UNSPECIFIED`, i.e. `0.0.0.0`. -/
def unspecifiedV4 : IpAddr := .v4 [0, 0, 0, 0]

/-- `Ipv6Addr::UNSPECIFIED`, i.e. `::`. -/
def unspecifiedV6 : IpAddr := .v6 (List.replicate 16 0)

/-- The `Route` structure of `route.rs`: destination, mask length
(field `prefix` in the source, named `prefixLen` here because `prefix` is a
Lean keyword), gateway, optional interface index, optional metric, optional
LUID, and the derived version tag. -/
structure Route where
  destination : IpAddr
  prefixLen : Nat
  gateway : IpAddr
  ifindex : Option Nat
  metric : Option Nat
  luid : Option Nat
  version : Nat
deriving DecidableEq

/-- `Route::new(destination, prefix)`: gateway is the unspecified address of
the destination's family, the three optional fields start unset, and
`version` is derived from the destination. -/
def Route.new (destination : IpAddr) (prefixLen : Nat) : Route :=
  { destination := destination
    prefixLen := prefixLen
    gateway := match destination with
      | .v4 _ => unspecifiedV4
      | .v6 _ => unspecifiedV6
    ifindex := none
    metric := none
    luid := none
    version := destination.version }

/-- Builder setter `Route::destination`, which also recomputes `version`. -/
def Route.setDestination (r : Route) (destination : IpAddr) : Route :=
  { r with destination := destination, version := destination.version }

/-- Builder setter `Route::prefix`. -/
def Route.setPrefix (r : Route) (p : Nat) : Route :=
  { r with prefixLen := p }

/-- Builder setter `Route::gateway`. -/
def Route.setGateway (r : Route) (gateway : IpAddr) : Route :=
  { r with gateway := gateway }

/-- Builder setter `Route::ifindex` (stores `Some idx`). -/
def Route.setIfindex (r : Route) (idx : Nat) : Route :=
  { r with ifindex := some idx }

/-- Builder setter `Route::metric` (stores `Some metric`). -/
def Route.setMetric (r : Route) (m : Nat) : Route :=
  { r with metric := some m }

/-- Builder setter `Route::luid` (stores `Some luid`). -/
def Route.setLuid (r : Route) (l : Nat) : Route :=
  { r with luid := some l }

/-- Decimal rendering of one octet list joined by dots: the `Display`
implementation of `std::net::Ipv4Addr` (`"a.b.c.d"`). -/
def ipv4ToString (o : List Nat) : String :=
  String.intercalate "." (o.map (fun b => toString b))

/-- Group sixteen octets into eight 16-bit segments, as
`Ipv6Addr::segments` does. -/
def pairSegs : List Nat → List Nat
  | a :: b :: rest => (a * 256 + b) :: pairSegs rest
  | _ => []

/-- Lowercase hexadecimal rendering of one 16-bit segment without leading
zeros, as `Ipv6Addr`'s `Display` renders each segment. -/
def hexSeg (n : Nat) : String :=
  String.mk (Nat.toDigits 16 n)

/-- Scan for the first longest run of zero segments, mirroring the loop in
`Ipv6Addr`'s `Display` implementation: `cur` is the run in progress
(start, length), `best` the longest seen (replaced only on strictly greater
length, so the first longest run wins). -/
def zeroRunGo : List Nat → Nat → Nat × Nat → Nat × Nat → Nat × Nat
  | [], _, _, best => best
  | s :: rest, i, cur, best =>
    if s = 0 then
      let start := if cur.2 = 0 then i else cur.1
      let len := cur.2 + 1
      if len > best.2 then zeroRunGo rest (i + 1) (start, len) (start, len)
      else zeroRunGo rest (i + 1) (start, len) best
    else zeroRunGo rest (i + 1) (0, 0) best

/-- The `Display` implementation of `std::net::Ipv6Addr`: `::` for the
unspecified address, `::1` for loopback, dotted-quad tail for v4-mapped
addresses, otherwise hexadecimal segments with the first longest run of two
or more zero segments compressed to `::`. -/
def ipv6ToString (o : List Nat) : String :=
  let segs := pairSegs o
  match segs with
  | [0, 0, 0, 0, 0, 0, 0, 0] => "::"
  | [0, 0, 0, 0, 0, 0, 0, 1] => "::1"
  | [0, 0, 0, 0, 0, 65535, s6, s7] =>
      "::ffff:" ++ ipv4ToString [s6 / 256, s6 % 256, s7 / 256, s7 % 256]
  | _ =>
    let best := zeroRunGo segs 0 (0, 0) (0, 0)
    if best.2 > 1 then
      String.intercalate ":" ((segs.take best.1).map hexSeg) ++ "::" ++
        String.intercalate ":" ((segs.drop (best.1 + best.2)).map hexSeg)
    else String.intercalate ":" (segs.map hexSeg)

/-- `IpAddr::to_string`, dispatching on the address family. -/
def IpAddr.render : IpAddr → String
  | .v4 o => ipv4ToString o
  | .v6 o => ipv6ToString o

/-- The metric field as the `Display` implementation in `route.rs` prints it:
the `{:?}` (Debug) rendering of `Option<u32>`, i.e. `"None"` or
`"Some(<n>)"`. -/
def metricSegment : Option Nat → String
  | none => "None"
  | some m => "Some(" ++ toString m ++ ")"

/-- The `Display` implementation for `Route`:
`"{destination}/{prefix} gateway {gateway} metric {metric:?}"`. -/
def Route.render (r : Route) : String :=
  r.destination.render ++ "/" ++ toString r.prefixLen ++ " gateway " ++
    r.gateway.render ++ " metric " ++ metricSegment r.metric

/-- The `RouteEvent` enum of `manager.rs`: one kernel table mutation. -/
inductive RouteEvent where
  | Add : Route → RouteEvent
  | Delete : Route → RouteEvent
  | Change : Route → RouteEvent
deriving DecidableEq

/-- `Iterator::position`: index of the first element satisfying the
predicate, used by `poll` via `routes.iter().position(...)`. -/
def position (p : Route → Bool) : List Route → Option Nat
  | [] => none
  | v :: rest => if p v then some 0 else (position p rest).map (· + 1)

/-- The cache mutation performed inside `RouteManager::poll` for one drained
event (the `match event` block): `Add` pushes the route; `Delete` removes the
first entry structurally equal to the route, if any; `Change` removes the
first entry whose destination and prefix both match and then pushes the
route — when no entry matches, `Change` leaves the cache untouched. -/
def applyEvent (routes : List Route) : RouteEvent → List Route
  | .Add route => routes ++ [route]
  | .Delete route =>
      match position (fun v => decide (v = route)) routes with
      | some index => routes.eraseIdx index
      | none => routes
  | .Change route =>
      match position
          (fun v => decide (v.destination = route.destination) &&
            decide (v.prefixLen = route.prefixLen)) routes with
      | some index => routes.eraseIdx index ++ [route]
      | none => routes

/-- `io::ErrorKind` restricted to the variants `code_to_error` produces. -/
inductive ErrorKind where
  | NotFound
  | PermissionDenied
  | InvalidInput
  | AlreadyExists
  | Other
deriving DecidableEq

/-- The `Display` rendering of `io::ErrorKind` (its `as_str` strings),
which `code_to_error` interpolates via `kind.to_string()`. -/
def ErrorKind.asStr : ErrorKind → String
  | .NotFound => "entity not found"
  | .PermissionDenied => "permission denied"
  | .InvalidInput => "invalid input parameter"
  | .AlreadyExists => "entity already exists"
  | .Other => "other error"

/-- An `io::Error` as built by `io::Error::new(kind, message)`. -/
structure IoError where
  kind : ErrorKind
  message : String
deriving DecidableEq

/-- `code_to_error` of `windows.rs`: map a native error code to an
`ErrorKind` (2, 5, 87, 5010, 1168 to the named kinds, all else to `Other`)
and build the message `format!("{}: {}", msg, kind.to_string())`. -/
def code_to_error (code : Nat) (msg : String) : IoError :=
  let kind : ErrorKind :=
    if code = 2 then .NotFound
    else if code = 5 then .PermissionDenied
    else if code = 87 then .InvalidInput
    else if code = 5010 then .AlreadyExists
    else if code = 1168 then .NotFound
    else .Other
  { kind := kind, message := msg ++ ": " ++ kind.asStr }

/-- Windows address-family constants: `AF_INET`. -/
def AF_INET : Nat := 2

/-- Windows address-family constants: `AF_INET6`. -/
def AF_INET6 : Nat := 23

/-- `MIB_IPPROTO_NETMGMT`, the "network management" route origin tag. -/
def MIB_IPPROTO_NETMGMT : Nat := 3

/-- The `SOCKADDR_INET` union, modelled by its byte regions rather than by
overlapping views: `si_family` holds the 16-bit family tag at offset 0;
`sin_addr_bytes` is the four bytes at offsets 4..8, which `SOCKADDR_IN`
reads as `sin_addr` and which alias `SOCKADDR_IN6.sin6_flowinfo` (NOT the
v6 address); `sin6_addr_bytes` is the sixteen bytes at offsets 8..24 that
`SOCKADDR_IN6` reads as `sin6_addr`. Writing one region never disturbs the
other, exactly as in the native layout. -/
structure SOCKADDR_INET where
  si_family : Nat
  sin_addr_bytes : List Nat
  sin6_addr_bytes : List Nat
deriving DecidableEq

/-- An all-zero `SOCKADDR_INET`, as produced by `std::mem::zeroed`. -/
def SOCKADDR_INET.zeroed : SOCKADDR_INET :=
  { si_family := 0
    sin_addr_bytes := [0, 0, 0, 0]
    sin6_addr_bytes := List.replicate 16 0 }

/-- The `IP_ADDRESS_PREFIX` structure: a socket address plus mask length. -/
structure IP_ADDRESS_PREFIX where
  Prefix : SOCKADDR_INET
  PrefixLength : Nat
deriving DecidableEq

/-- The fields of `MIB_IPFORWARD_ROW2` that the code reads or writes.
`InitializeIpForwardEntry` leaves all of these zero except `Metric` and
`Protocol`, which the conversion always overwrites. -/
structure MIB_IPFORWARD_ROW2 where
  InterfaceLuid : Nat
  InterfaceIndex : Nat
  DestinationPrefix : IP_ADDRESS_PREFIX
  NextHop : SOCKADDR_INET
  Metric : Nat
  Protocol : Nat
deriving DecidableEq

/-- The row as left by `std::mem::zeroed` plus `InitializeIpForwardEntry`,
restricted to the fields above (all of which the conversion goes on to
determine; the "illegal value" the initializer puts in `Metric` is always
overwritten, so it is immaterial and left 0 here). -/
def initRow : MIB_IPFORWARD_ROW2 :=
  { InterfaceLuid := 0
    InterfaceIndex := 0
    DestinationPrefix := { Prefix := SOCKADDR_INET.zeroed, PrefixLength := 0 }
    NextHop := SOCKADDR_INET.zeroed
    Metric := 0
    Protocol := 0 }

/-- `impl From<&Route> for MIB_IPFORWARD_ROW2`, as written: interface index
and LUID copied when present; the gateway's family tag set to `AF_INET` in
BOTH branches (the v6 branch writes the v6 address region but tags the
family as v4, exactly as the source does); destination encoded with the
correct family per branch; metric copied or zeroed; protocol set to the
network-management origin. -/
def MIB_IPFORWARD_ROW2.fromRoute (route : Route) : MIB_IPFORWARD_ROW2 :=
  let row := initRow
  let row := match route.ifindex with
    | some ifindex => { row with InterfaceIndex := ifindex }
    | none => row
  let row := match route.luid with
    | some luid => { row with InterfaceLuid := luid }
    | none => row
  let row := match route.gateway with
    | .v4 o =>
        { row with NextHop :=
            { row.NextHop with si_family := AF_INET, sin_addr_bytes := o } }
    | .v6 o =>
        { row with NextHop :=
            { row.NextHop with si_family := AF_INET, sin6_addr_bytes := o } }
  let row :=
    { row with DestinationPrefix :=
        { row.DestinationPrefix with PrefixLength := route.prefixLen } }
  let row := match route.destination with
    | .v4 o =>
        { row with DestinationPrefix :=
            { row.DestinationPrefix with Prefix :=
                { row.DestinationPrefix.Prefix with
                    si_family := AF_INET, sin_addr_bytes := o } } }
    | .v6 o =>
        { row with DestinationPrefix :=
            { row.DestinationPrefix with Prefix :=
                { row.DestinationPrefix.Prefix with
                    si_family := AF_INET6, sin6_addr_bytes := o } } }
  let row := match route.metric with
    | some metric => { row with Metric := metric }
    | none => { row with Metric := 0 }
  { row with Protocol := MIB_IPPROTO_NETMGMT }

/-- Decode one `SOCKADDR_INET` by branching on its family tag, as both
address decodes in `impl From<&MIB_IPFORWARD_ROW2> for Route` do; `none`
models the `panic!("Unexpected family")` arm. -/
def decodeSockaddr (s : SOCKADDR_INET) : Option IpAddr :=
  if s.si_family = AF_INET then some (.v4 s.sin_addr_bytes)
  else if s.si_family = AF_INET6 then some (.v6 s.sin6_addr_bytes)
  else none

/-- `impl From<&MIB_IPFORWARD_ROW2> for Route`: decode destination and
next hop by family tag (panicking — `none` — on any other family), then
build `Route::new(dst, dst_len).ifindex(..).luid(..).metric(..)` and
overwrite the gateway field with the decoded next hop. -/
def routeFromRow (row : MIB_IPFORWARD_ROW2) : Option Route :=
  match decodeSockaddr row.DestinationPrefix.Prefix with
  | none => none
  | some dst =>
    match decodeSockaddr row.NextHop with
    | none => none
    | some gateway =>
      some { (((Route.new dst row.DestinationPrefix.PrefixLength).setIfindex
                row.InterfaceIndex).setLuid row.InterfaceLuid).setMetric
                row.Metric with
             gateway := gateway }

/-- Encode a `Route` to the native row and decode it back. -/
def roundTrip (route : Route) : Option Route :=
  routeFromRow (MIB_IPFORWARD_ROW2.fromRoute route)

/-- The `WindowsOperator` state relevant to registration: the stored
subscription handle. The field starts `None` and — decisive for the
idempotence claim — no statement in `windows.rs` ever assigns it
(`register_route_listener` takes `&self` and leaves its freshly obtained
handle in a local variable). -/
structure WindowsOperator where
  notify_handle : Option Nat
deriving DecidableEq

/-- `WindowsOperator::new`: no handle registered yet. -/
def WindowsOperator.newOp : WindowsOperator :=
  { notify_handle := none }

/-- `WindowsOperator::register_route_listener`, with the kernel's return
code from `NotifyRouteChange2` supplied as `notifyRet`: if a handle is
already stored, fail with code 5010 ("Already registered"); otherwise call
the kernel and map a nonzero return to an error. The returned operator
state is unchanged in every branch because the source never stores the
local `handle` into `self.notify_handle`. -/
def WindowsOperator.register_route_listener (op : WindowsOperator)
    (notifyRet : Nat) : Except IoError Unit × WindowsOperator :=
  match op.notify_handle with
  | some _ => (.error (code_to_error 5010 "Already registered"), op)
  | none =>
      if notifyRet ≠ 0 then
        (.error (code_to_error notifyRet "error notify route change"), op)
      else (.ok (), op)

/-- `WindowsOperator::init`: delegates to `register_route_listener`. -/
def WindowsOperator.init (op : WindowsOperator) (notifyRet : Nat) :
    Except IoError Unit × WindowsOperator :=
  op.register_route_listener notifyRet

/-- `WindowsOperator::add_route`, with the two kernel interactions supplied
as values: `bestIf` is the outcome of `find_best_interface(route.gateway)`
and `createRet` the return code of `CreateIpForwardEntry2`. When neither
`ifindex` nor `luid` is set, the best-interface index is resolved and filled
in before building the row. -/
def WindowsOperator.add_route (route : Route) (bestIf : Except IoError Nat)
    (createRet : Nat) : Except IoError Unit :=
  if route.ifindex = none ∧ route.luid = none then
    match bestIf with
    | .error e => .error e
    | .ok bestIdx =>
        let _row := MIB_IPFORWARD_ROW2.fromRoute (route.setIfindex bestIdx)
        if createRet ≠ 0 then .error (code_to_error createRet "error creating entry")
        else .ok ()
  else
    let _row := MIB_IPFORWARD_ROW2.fromRoute route
    if createRet ≠ 0 then .error (code_to_error createRet "error creating entry")
    else .ok ()

/-- `WindowsOperator::delete_route`, with the return code of
`DeleteIpForwardEntry2` supplied as `deleteRet`. -/
def WindowsOperator.delete_route (route : Route) (deleteRet : Nat) :
    Except IoError Unit :=
  let _row := MIB_IPFORWARD_ROW2.fromRoute route
  if deleteRet ≠ 0 then .error (code_to_error deleteRet "error deleting entry")
  else .ok ()

/-- The `RouteManager` state: the locked cache, the operator-side raw event
queue (`operator_receiver`), and the events republished to subscribers
(`producer`/`subscribers`). -/
structure ManagerState where
  routes : List Route
  opQueue : List RouteEvent
  published : List RouteEvent
deriving DecidableEq

/-- `RouteManager::poll`: block on the raw channel (`none` when nothing will
arrive), apply the drained event to the cache via the `match event` block,
and republish the same event to the subscriber channel. -/
def ManagerState.poll (s : ManagerState) : Option ManagerState :=
  match s.opQueue with
  | [] => none
  | event :: rest =>
      some { routes := applyEvent s.routes event
             opQueue := rest
             published := s.published ++ [event] }

/-- `RouteManager::routes`: a point-in-time copy of the cache. -/
def ManagerState.routesQuery (s : ManagerState) : List Route :=
  s.routes

/-- `RouteManager::add_route`: passes straight through to the operator and
returns; the manager state (in particular the cache) is not touched. -/
def ManagerState.add_route (s : ManagerState) (route : Route)
    (bestIf : Except IoError Nat) (createRet : Nat) :
    Except IoError Unit × ManagerState :=
  (WindowsOperator.add_route route bestIf createRet, s)

/-- `RouteManager::delete_route`: passes straight through to the operator
and returns; the manager state is not touched. -/
def ManagerState.delete_route (s : ManagerState) (route : Route)
    (deleteRet : Nat) : Except IoError Unit × ManagerState :=
  (WindowsOperator.delete_route route deleteRet, s)

/-- `MIB_NOTIFICATION_TYPE`: `MibParameterNotification`. -/
def MibParameterNotification : Nat := 0

/-- `MIB_NOTIFICATION_TYPE`: `MibAddInstance`. -/
def MibAddInstance : Nat := 1

/-- `MIB_NOTIFICATION_TYPE`: `MibDeleteInstance`. -/
def MibDeleteInstance : Nat := 2

/-- Outcome of one invocation of the kernel callback: a normal return
(carrying the event pushed to the sink, or `none` when the notification
kind was ignored), or a panic escaping the callback. -/
inductive CallbackResult where
  | returned : Option RouteEvent → CallbackResult
  | panicked : CallbackResult
deriving DecidableEq

/-- The `callback` function of `windows.rs`, with the channel's health
supplied as `sendSucceeds`: decode the row (`Route::from` panics on an
unknown family), select the event by notification kind (ignoring unknown
kinds with a bare return), and push it via `sender.send(event).unwrap()` —
the `unwrap` turns a failed send into a panic. -/
def callback (row : MIB_IPFORWARD_ROW2) (notificationKind : Nat)
    (sendSucceeds : Bool) : CallbackResult :=
  match routeFromRow row with
  | none => .panicked
  | some route =>
    let event : Option RouteEvent :=
      if notificationKind = MibParameterNotification then some (.Change route)
      else if notificationKind = MibAddInstance then some (.Add route)
      else if notificationKind = MibDeleteInstance then some (.Delete route)
      else none
    match event with
    | none => .returned none
    | some ev => if sendSucceeds then .returned (some ev) else .panicked

/-- Concrete sample route `10.1.1.0/24` used in witnesses and
counterexamples. -/
def routeA : Route := Route.new (IpAddr.v4 [10, 1, 1, 0]) 24

/-- Sample route sharing `routeA`'s destination and prefix but with a
different metric. -/
def routeB : Route := (Route.new (IpAddr.v4 [10, 1, 1, 0]) 24).setMetric 9

/-- Sample route with a destination different from `routeA`'s. -/
def routeC : Route := Route.new (IpAddr.v4 [10, 2, 2, 0]) 24

/-- Concrete v6 route `fe80::1/64` with v6 gateway `fe80::2`. -/
def routeV6 : Route :=
  (Route.new (IpAddr.v6 [254, 128, 0, 0, 0, 0, 0, 0, 0, 0, 0, 0, 0, 0, 0, 1])
      64).setGateway
    (IpAddr.v6 [254, 128, 0, 0, 0, 0, 0, 0, 0, 0, 0, 0, 0, 0, 0, 2])

/-- The native row encoding of `routeA`. -/
def sampleRow : MIB_IPFORWARD_ROW2 := MIB_IPFORWARD_ROW2.fromRoute routeA

/-- The route obtained by decoding `sampleRow`. -/
def sampleDecoded : Route :=
  (((Route.new (IpAddr.v4 [10, 1, 1, 0]) 24).setIfindex 0).setLuid 0).setMetric 0

/-- `position` returns `none` on a list with no element satisfying the
predicate. -/
theorem position_eq_none {p : Route → Bool} {l : List Route}
    (h : ∀ x ∈ l, p x = false) : position p l = none := by
  induction l with
  | nil => rfl
  | cons v rest ih =>
    have hv := h v (by simp)
    have hrest : ∀ x ∈ rest, p x = false := fun x hx => h x (by simp [hx])
    simp [position, hv, ih hrest]

/-- `position` on a list whose first satisfying element sits after `l1`
returns the length of `l1`. -/
theorem position_append (p : Route → Bool) (l1 : List Route) (v : Route)
    (l2 : List Route) (h1 : ∀ x ∈ l1, p x = false) (hv : p v = true) :
    position p (l1 ++ v :: l2) = some l1.length := by
  induction l1 with
  | nil => simp [position, hv]
  | cons u rest ih =>
    have hu := h1 u (by simp)
    have hrest : ∀ x ∈ rest, p x = false := fun x hx => h1 x (by simp [hx])
    simp [position, hu, ih hrest]

/-- Removing the element at the index right after `l1` from `l1 ++ v :: l2`
yields `l1 ++ l2`. -/
theorem eraseIdx_append (l1 : List Route) (v : Route) (l2 : List Route) :
    (l1 ++ v :: l2).eraseIdx l1.length = l1 ++ l2 := by
  induction l1 with
  | nil => rfl
  | cons u rest ih => simp [List.eraseIdx, ih]

/-- C1, counterexample: for the v6 route `fe80::1/64` with gateway `fe80::2`
and unset ifindex/metric/luid, the round trip through the native row does
not restore gateway, ifindex, metric and luid — the decoded gateway is the
IPv4 address `0.0.0.0` and the three optional fields come back `Some 0`. -/
theorem roundTrip_not_exact_on_v6 :
    (roundTrip routeV6).map (fun r => r.gateway) = some (IpAddr.v4 [0, 0, 0, 0]) ∧
    (roundTrip routeV6).map (fun r => r.ifindex) = some (some 0) ∧
    decide ((roundTrip routeV6).map
        (fun r => (r.gateway, r.ifindex, r.metric, r.luid)) =
      some (routeV6.gateway, routeV6.ifindex, routeV6.metric, routeV6.luid)) =
      false := by
  exact ⟨rfl, rfl, rfl⟩

/-- C1, amended: the round trip through the native row preserves destination
and prefix exactly for both families; ifindex, metric and luid come back as
`Some` of the original value when set and `Some 0` when unset; a v4 gateway
is preserved, but a v6 gateway decodes as IPv4 `0.0.0.0` because the encoder
tags `NextHop` with the v4 family while writing the v6 address region. -/
theorem roundTrip_characterization (r : Route) :
    ∃ r', roundTrip r = some r' ∧
      r'.destination = r.destination ∧
      r'.prefixLen = r.prefixLen ∧
      r'.ifindex = some (r.ifindex.getD 0) ∧
      r'.metric = some (r.metric.getD 0) ∧
      r'.luid = some (r.luid.getD 0) ∧
      r'.gateway = (match r.gateway with
        | .v4 o => IpAddr.v4 o
        | .v6 _ => IpAddr.v4 [0, 0, 0, 0]) := by
  obtain ⟨dest, pl, gw, ifi, met, lu, ver⟩ := r
  cases dest <;> cases gw <;> cases ifi <;> cases met <;> cases lu <;>
    exact ⟨_, rfl, rfl, rfl, rfl, rfl, rfl, rfl⟩

/-- C2: after a first successful `init` on a fresh operator, the stored
notification handle is still `none` — the subscription handle is never
stored — so a second `init` passes the already-registered check and returns
`Ok(())` instead of the `AlreadyExists` error the specification requires. -/
theorem init_twice_returns_ok :
    (WindowsOperator.newOp.init 0).1 = Except.ok () ∧
    (WindowsOperator.newOp.init 0).2.notify_handle = none ∧
    ((WindowsOperator.newOp.init 0).2.init 0).1 = Except.ok () := by
  exact ⟨rfl, rfl, rfl⟩

/-- C3: when the event sink is disconnected (`sendSucceeds = false`), the
kernel callback panics through `sender.send(event).unwrap()` instead of
swallowing the failure; an unrecognized notification kind, by contrast, is
ignored with a normal return. -/
theorem callback_panics_when_send_fails :
    callback sampleRow MibAddInstance false = CallbackResult.panicked ∧
    callback sampleRow 99 false = CallbackResult.returned none := by
  exact ⟨rfl, rfl⟩

/-- C4, counterexample: applying `Change(routeA)` to an empty cache leaves
the cache empty — the route is not appended when no entry matches its
destination and prefix, contradicting the claim's prediction `[routeA]`. -/
theorem change_event_no_match_no_append :
    applyEvent [] (RouteEvent.Change routeA) = [] ∧
    decide (applyEvent [] (RouteEvent.Change routeA) = [routeA]) = false := by
  exact ⟨rfl, rfl⟩

/-- C4, amended: applying a `Change(r)` event removes the first cache entry
whose destination and prefix both equal `r`'s and appends `r`, leaving all
other entries untouched, whenever such an entry exists; when the cache
contains no entry matching `r`'s destination and prefix, the cache is left
unchanged and `r` is not appended. -/
theorem change_event_semantics :
    (∀ (cache : List Route) (r : Route),
        (∀ v ∈ cache,
          ¬(v.destination = r.destination ∧ v.prefixLen = r.prefixLen)) →
        applyEvent cache (RouteEvent.Change r) = cache) ∧
    (∀ (l1 l2 : List Route) (v r : Route),
        (∀ u ∈ l1,
          ¬(u.destination = r.destination ∧ u.prefixLen = r.prefixLen)) →
        v.destination = r.destination → v.prefixLen = r.prefixLen →
        applyEvent (l1 ++ v :: l2) (RouteEvent.Change r) = (l1 ++ l2) ++ [r]) := by
  constructor
  · intro cache r h
    have hp : ∀ x ∈ cache,
        (fun v => decide (v.destination = r.destination) &&
          decide (v.prefixLen = r.prefixLen)) x = false := by
      intro x hx
      rcases not_and_or.mp (h x hx) with hc | hc <;> simp [decide_eq_false hc]
    simp [applyEvent, position_eq_none hp]
  · intro l1 l2 v r h hd hpfx
    have hp : ∀ x ∈ l1,
        (fun u => decide (u.destination = r.destination) &&
          decide (u.prefixLen = r.prefixLen)) x = false := by
      intro x hx
      rcases not_and_or.mp (h x hx) with hc | hc <;> simp [decide_eq_false hc]
    have hv : (fun u => decide (u.destination = r.destination) &&
        decide (u.prefixLen = r.prefixLen)) v = true := by
      simp [hd, hpfx]
    simp [applyEvent, position_append _ l1 v l2 hp hv, eraseIdx_append]

/-- C4, witness: a no-match cache is untouched, and a matching entry is
replaced at concrete inputs. -/
theorem change_event_semantics_witness :
    applyEvent [routeC] (RouteEvent.Change routeA) = [routeC] ∧
    applyEvent ([routeC] ++ routeA :: [routeC]) (RouteEvent.Change routeB) =
      ([routeC] ++ [routeC]) ++ [routeB] :=
  ⟨change_event_semantics.1 [routeC] routeA (by decide),
   change_event_semantics.2 [routeC] [routeC] routeA routeB (by decide)
     (by decide) (by decide)⟩

/-- C5: applying a `Delete(r)` event removes the first cache entry
structurally equal to `r` and keeps everything else: a cache with no entry
equal to `r` is unchanged, removing the first occurrence of `r` from
`l1 ++ r :: l2` with `r` not in `l1` yields `l1 ++ l2`, and deleting from
the one-element cache `[r]` yields the empty cache. -/
theorem delete_event_semantics :
    (∀ (cache : List Route) (r : Route), (∀ v ∈ cache, v ≠ r) →
        applyEvent cache (RouteEvent.Delete r) = cache) ∧
    (∀ (l1 l2 : List Route) (r : Route), (∀ v ∈ l1, v ≠ r) →
        applyEvent (l1 ++ r :: l2) (RouteEvent.Delete r) = l1 ++ l2) ∧
    (∀ r : Route, applyEvent [r] (RouteEvent.Delete r) = []) := by
  have key2 : ∀ (l1 l2 : List Route) (r : Route), (∀ v ∈ l1, v ≠ r) →
      applyEvent (l1 ++ r :: l2) (RouteEvent.Delete r) = l1 ++ l2 := by
    intro l1 l2 r h
    have hp : ∀ x ∈ l1, (fun v => decide (v = r)) x = false :=
      fun x hx => decide_eq_false (h x hx)
    simp [applyEvent, position_append _ l1 r l2 hp (by simp), eraseIdx_append]
  refine ⟨?_, key2, fun r => by simpa using key2 [] [] r (by simp)⟩
  intro cache r h
  have hp : ∀ x ∈ cache, (fun v => decide (v = r)) x = false :=
    fun x hx => decide_eq_false (h x hx)
  simp [applyEvent, position_eq_none hp]

/-- C5, witness: concrete no-match, first-occurrence and singleton cases. -/
theorem delete_event_semantics_witness :
    applyEvent [routeC] (RouteEvent.Delete routeA) = [routeC] ∧
    applyEvent ([routeC] ++ routeA :: [routeB]) (RouteEvent.Delete routeA) =
      [routeC] ++ [routeB] ∧
    applyEvent [routeA] (RouteEvent.Delete routeA) = [] :=
  ⟨delete_event_semantics.1 [routeC] routeA (by decide),
   delete_event_semantics.2.1 [routeC] [routeB] routeA (by decide),
   delete_event_semantics.2.2 routeA⟩

/-- C6: `Route::new(destination, prefix)` sets the gateway to the
unspecified (all-zero) address of the destination's family and leaves
ifindex, metric and luid unset. -/
theorem route_new_defaults (destination : IpAddr) (p : Nat) :
    (Route.new destination p).gateway =
      (if destination.version = 4 then unspecifiedV4 else unspecifiedV6) ∧
    (Route.new destination p).gateway.version = destination.version ∧
    (Route.new destination p).ifindex = none ∧
    (Route.new destination p).metric = none ∧
    (Route.new destination p).luid = none := by
  cases destination <;> exact ⟨rfl, rfl, rfl, rfl, rfl⟩

/-- C7: `code_to_error` maps codes 2, 5, 87, 5010, 1168 to `NotFound`,
`PermissionDenied`, `InvalidInput`, `AlreadyExists`, `NotFound`, every other
code to `Other`, and every produced message is the operation description
followed by the rendering of the mapped kind. -/
theorem code_to_error_taxonomy :
    (∀ msg : String,
        (code_to_error 2 msg).kind = ErrorKind.NotFound ∧
        (code_to_error 5 msg).kind = ErrorKind.PermissionDenied ∧
        (code_to_error 87 msg).kind = ErrorKind.InvalidInput ∧
        (code_to_error 5010 msg).kind = ErrorKind.AlreadyExists ∧
        (code_to_error 1168 msg).kind = ErrorKind.NotFound) ∧
    (∀ (code : Nat) (msg : String), code ≠ 2 → code ≠ 5 → code ≠ 87 →
        code ≠ 5010 → code ≠ 1168 →
        (code_to_error code msg).kind = ErrorKind.Other) ∧
    (∀ (code : Nat) (msg : String),
        (code_to_error code msg).message =
          msg ++ ": " ++ (code_to_error code msg).kind.asStr) := by
  refine ⟨fun msg => ⟨rfl, rfl, rfl, rfl, rfl⟩, ?_, fun code msg => rfl⟩
  intro code msg h2 h5 h87 h5010 h1168
  simp [code_to_error, h2, h5, h87, h5010, h1168]

/-- C7, witness: concrete instantiations of the mapping and the message
shape. -/
theorem code_to_error_taxonomy_witness :
    (code_to_error 2 "op").kind = ErrorKind.NotFound ∧
    (code_to_error 1234 "op").kind = ErrorKind.Other ∧
    (code_to_error 1234 "op").message =
      "op" ++ ": " ++ (code_to_error 1234 "op").kind.asStr :=
  ⟨(code_to_error_taxonomy.1 "op").1,
   code_to_error_taxonomy.2.1 1234 "op" (by decide) (by decide) (by decide)
     (by decide) (by decide),
   code_to_error_taxonomy.2.2 1234 "op"⟩

/-- C8: the manager's `add_route` and `delete_route` pass through to the
operator and leave the cache untouched, whatever the kernel outcome, so
`routes()` returns the same value immediately before and after. -/
theorem mutation_calls_leave_cache_unchanged (s : ManagerState)
    (route : Route) (bestIf : Except IoError Nat) (createRet deleteRet : Nat) :
    (s.add_route route bestIf createRet).2.routesQuery = s.routesQuery ∧
    (s.delete_route route deleteRet).2.routesQuery = s.routesQuery :=
  ⟨rfl, rfl⟩

/-- C9: the rendering of a route is
`"<destination>/<prefix> gateway <gateway> metric <metric-segment>"`, the
unset-metric segment differs from the segment of every set metric, and the
two concrete v4 examples render as the source's own tests record. -/
theorem route_render_contract :
    (∀ r : Route, r.render =
        r.destination.render ++ "/" ++ toString r.prefixLen ++ " gateway " ++
          r.gateway.render ++ " metric " ++ metricSegment r.metric) ∧
    (∀ k : Nat, decide (metricSegment none = metricSegment (some k)) = false) ∧
    (Route.new (IpAddr.v4 [192, 168, 1, 0]) 32).render =
      "192.168.1.0/32 gateway 0.0.0.0 metric None" ∧
    ((((Route.new (IpAddr.v4 [192, 168, 1, 0]) 32).setPrefix 24).setGateway
        (IpAddr.v4 [172, 1, 1, 254])).setMetric 1).render =
      "192.168.1.0/24 gateway 172.1.1.254 metric Some(1)" := by
  refine ⟨fun r => rfl, ?_, rfl, rfl⟩
  intro k
  apply decide_eq_false
  intro hEq
  have hlen := congrArg String.length hEq
  simp only [metricSegment, String.length_append] at hlen
  have hNone : ("None" : String).length = 4 := rfl
  have hSome : ("Some(" : String).length = 5 := rfl
  have hParen : (")" : String).length = 1 := rfl
  omega

/-- C10: every route produced by decoding a native row has ifindex, metric
and luid set to `Some` of the row's corresponding field — never `none`. -/
theorem decoded_route_optionals_always_set (row : MIB_IPFORWARD_ROW2)
    (r : Route) (h : routeFromRow row = some r) :
    r.ifindex = some row.InterfaceIndex ∧ r.metric = some row.Metric ∧
      r.luid = some row.InterfaceLuid ∧ r.ifindex.isSome = true ∧
      r.metric.isSome = true ∧ r.luid.isSome = true := by
  unfold routeFromRow at h
  cases hd : decodeSockaddr row.DestinationPrefix.Prefix with
  | none => rw [hd] at h; simp at h
  | some dst =>
    cases hg : decodeSockaddr row.NextHop with
    | none => rw [hd, hg] at h; simp at h
    | some gw =>
      rw [hd, hg] at h
      simp only [Option.some.injEq] at h
      subst h
      exact ⟨rfl, rfl, rfl, rfl, rfl, rfl⟩

/-- C10, witness: decoding the sample row yields a route with all three
optional fields set. -/
theorem decoded_route_optionals_witness :
    sampleDecoded.ifindex = some sampleRow.InterfaceIndex ∧
    sampleDecoded.metric = some sampleRow.Metric ∧
    sampleDecoded.luid = some sampleRow.InterfaceLuid ∧
    sampleDecoded.ifindex.isSome = true ∧ sampleDecoded.metric.isSome = true ∧
    sampleDecoded.luid.isSome = true :=
  decoded_route_optionals_always_set sampleRow sampleDecoded (by decide)

end Winroute
